import Mathlib

/-!
# Verification of the Saree Sanctuary backend core

Shallow embedding of the repository's data-access and query layer
(`src/main.py`, `src/schemas.py`) and proofs about it.

Documents are modelled as Python dicts: association lists from string
keys to values, with the dict invariant (no duplicate keys) reflected in
the operation definitions (lookup finds the first entry, assignment
replaces in place or appends, as Python dict assignment does).

The repository imports `create_document`, `get_documents` and `db` from a
`database` module that is not part of the two source files; those three
are modelled from the specification (section 4.2 DocumentStore) and each
such definition is marked `Modelled from the spec:`.
-/

set_option autoImplicit false

namespace SareeSanctuary

/-- A value stored in a document: the payload types the backend moves
around (strings, integers, booleans, nulls, arrays, nested documents)
plus the store-assigned ObjectId, modelled as a natural number. -/
inductive Value where
  | vstr (s : String)
  | vint (n : Int)
  | vbool (b : Bool)
  | vnull
  | oid (n : Nat)
  | varr (l : List Value)
  | vdoc (fields : List (String × Value))

/-- A document is a Python dict: an association list of keyed values. -/
abbrev Doc := List (String × Value)

/-- Dict lookup: `d[k]` / `d.get(k)` — first entry with the key. -/
def getVal : Doc → String → Option Value
  | [], _ => none
  | (k', v) :: t, k => if k' == k then some v else getVal t k

/-- Python `k in d`. -/
def hasKey (d : Doc) (k : String) : Bool :=
  (getVal d k).isSome

/-- Removal of a key, as performed by Python `d.pop(k)`. -/
def removeKey : Doc → String → Doc
  | [], _ => []
  | (k', v) :: t, k => if k' == k then removeKey t k else (k', v) :: removeKey t k

/-- Python dict assignment `d[k] = v`: replaces the entry in place when
the key is present, appends otherwise. -/
def setKey : Doc → String → Value → Doc
  | [], k, v => [(k, v)]
  | (k', v') :: t, k, v => if k' == k then (k, v) :: t else (k', v') :: setKey t k v

/-- Python `str(...)` on a stored value. On the read path it is only ever
applied to the store-assigned `_id` (an ObjectId, rendered as its string
form); the remaining arms render the other value shapes. -/
def valueToString : Value → String
  | .vstr s => s
  | .vint n => toString n
  | .vbool b => toString b
  | .vnull => "None"
  | .oid n => toString n
  | .varr _ => "[...]"
  | .vdoc _ => "..."

/-- The identifier normalization applied to every outgoing document in
`main.py` (e.g. `list_products`, lines 197-199):
`if "_id" in d: d["id"] = str(d.pop("_id"))`. -/
def normalizeId (d : Doc) : Doc :=
  match getVal d "_id" with
  | some v => setKey (removeKey d "_id") "id" (.vstr (valueToString v))
  | none => d

theorem getVal_removeKey_self (d : Doc) (k : String) :
    getVal (removeKey d k) k = none := by
  induction d with
  | nil => rfl
  | cons p t ih =>
    obtain ⟨k', v⟩ := p
    by_cases h : k' == k
    · simpa [removeKey, h] using ih
    · simpa [removeKey, getVal, h] using ih

theorem getVal_removeKey_ne (d : Doc) (k k₂ : String) (hne : k₂ ≠ k) :
    getVal (removeKey d k) k₂ = getVal d k₂ := by
  induction d with
  | nil => rfl
  | cons p t ih =>
    obtain ⟨k', v⟩ := p
    by_cases h : k' == k
    · have hk : k' = k := by simpa using h
      have : ¬ (k' == k₂) := by simp [hk]; exact fun hc => hne hc.symm
      simp [removeKey, getVal, h, this, ih]
    · by_cases h2 : k' == k₂ <;> simp [removeKey, getVal, h, h2, ih]

theorem getVal_setKey_self (d : Doc) (k : String) (v : Value) :
    getVal (setKey d k v) k = some v := by
  induction d with
  | nil => simp [setKey, getVal]
  | cons p t ih =>
    obtain ⟨k', v'⟩ := p
    by_cases h : k' == k
    · simp [setKey, h, getVal]
    · simp [setKey, h, getVal, ih]

theorem getVal_setKey_ne (d : Doc) (k k₂ : String) (v : Value) (hne : k₂ ≠ k) :
    getVal (setKey d k v) k₂ = getVal d k₂ := by
  induction d with
  | nil =>
    have : ¬ (k == k₂) := by simp; exact fun hc => hne hc.symm
    simp [setKey, getVal, this]
  | cons p t ih =>
    obtain ⟨k', v'⟩ := p
    by_cases h : k' == k
    · have hk : k' = k := by simpa using h
      have : ¬ (k == k₂) := by simp; exact fun hc => hne hc.symm
      simp [setKey, h, getVal, this, hk]
    · by_cases h2 : k' == k₂ <;> simp [setKey, getVal, h, h2, ih]

/-! ## Case-insensitive substring matching

`main.py` filters products with a Mongo clause
`{"$regex": q, "$options": "i"}` on title/description. The clause's
evaluation happens inside the backing store (reached through the absent
`database` module), so its semantics is taken from the specification
(section 4.3): "matching if the value is a case-insensitive substring". -/

/-- `need` occurs as a contiguous run inside `hay`. -/
def infixAt (need hay : List Char) : Bool :=
  (List.range (hay.length + 1)).any fun i => need.isPrefixOf (hay.drop i)

/-- The characters of `s` lowercased. -/
def lowerChars (s : String) : List Char :=
  s.data.map Char.toLower

/-- Case-insensitive substring test: `pat` occurs in `s` ignoring case. -/
def containsCI (pat s : String) : Bool :=
  infixAt (lowerChars pat) (lowerChars s)

theorem infixAt_nil (hay : List Char) : infixAt [] hay = true := by
  apply List.any_eq_true.mpr
  exact ⟨0, by simp [List.mem_range], by simp [List.isPrefixOf]⟩

theorem containsCI_empty (s : String) : containsCI "" s = true := by
  have h : lowerChars "" = [] := rfl
  rw [containsCI, h, infixAt_nil]

/-! ## The document store

`main.py` imports `create_document`, `get_documents` and `db` from a
`database` module absent from the source tree; the store state and both
operations are modelled from the specification (section 4.2). -/

/-- Modelled from the spec: the backing store holds "one named collection
per entity kind" (section 6), each collection keeping its documents in
insertion order, plus the state from which `DocumentStore.create`
"assigns a fresh unique identifier". The five entity kinds are those of
section 3. -/
structure Store where
  category : List Doc
  vendor : List Doc
  product : List Doc
  review : List Doc
  order : List Doc
  nextId : Nat

/-- The named collection of an entity kind. -/
def getCollection (s : Store) (kind : String) : List Doc :=
  if kind == "category" then s.category
  else if kind == "vendor" then s.vendor
  else if kind == "product" then s.product
  else if kind == "review" then s.review
  else if kind == "order" then s.order
  else []

/-- Replace the named collection of an entity kind. -/
def setCollection (s : Store) (kind : String) (c : List Doc) : Store :=
  if kind == "category" then { s with category := c }
  else if kind == "vendor" then { s with vendor := c }
  else if kind == "product" then { s with product := c }
  else if kind == "review" then { s with review := c }
  else if kind == "order" then { s with order := c }
  else s

/-- Modelled from the spec: `database.get_documents`, the
`DocumentStore.query` operation — "returns up to `limit` documents
satisfying `predicate` (absent predicate ⇒ match-all); ordering is
insertion order" (section 4.2). The Mongo filter dicts built in `main.py`
appear here as the predicates interpreting them. -/
def get_documents (s : Store) (kind : String) (pred : Doc → Bool) (limit : Nat) : List Doc :=
  ((getCollection s kind).filter pred).take limit

/-- Modelled from the spec: `database.create_document`, the
`DocumentStore.create` operation — "assigns a fresh unique identifier,
persists the document verbatim (field names unchanged), returns the
identifier as an opaque string" (section 4.2). The identifier is stored
under the internal `_id` field that the read path later normalizes. -/
def create_document (s : Store) (kind : String) (d : Doc) : String × Store :=
  let i := s.nextId
  let s' := setCollection { s with nextId := i + 1 } kind
    (getCollection s kind ++ [d ++ [("_id", Value.oid i)]])
  (toString i, s')

/-- The Mongo filter dict `(k: v)` used by the slug and soft-FK lookups
in `main.py`: matches documents whose field `k` equals the string `v`
(missing field ⇒ no match). -/
def eqPred (k v : String) (d : Doc) : Bool :=
  match getVal d k with
  | some (.vstr s) => s == v
  | _ => false

/-! ## The product listing filter (`list_products`, main.py 172-199) -/

/-- The filter dict built by `list_products`: each field is `some` exactly
when the corresponding key was put into `filter_dict` (the `$or`
title/description regex clause for `q`, equality clauses for the rest). -/
structure ProductFilter where
  qPattern : Option String
  saree_type : Option String
  color : Option String
  material : Option String
  occasion : Option String

/-- Python truthiness on an optional string parameter: `if q:` runs its
body exactly when the parameter is present and non-empty. -/
def truthy : Option String → Option String
  | none => none
  | some s => if s == "" then none else some s

/-- `list_products`' construction of `filter_dict` from the five optional
query parameters: a clause is added for each truthy parameter. -/
def buildProductFilter (q saree_type color material occasion : Option String) : ProductFilter :=
  { qPattern := truthy q
    saree_type := truthy saree_type
    color := truthy color
    material := truthy material
    occasion := truthy occasion }

/-- Field `k` holds the exact string `v` — the Mongo equality clause,
case-sensitive. -/
def strFieldIs (d : Doc) (k : String) (v : String) : Bool :=
  match getVal d k with
  | some (.vstr s) => s == v
  | _ => false

/-- Modelled from the spec: the regex clause
`(k: ($regex: pat, $options: "i"))` on a string field — "a
case-insensitive substring of the field" (section 4.3); a missing or
non-string field does not match. -/
def strFieldContainsCI (d : Doc) (k : String) (pat : String) : Bool :=
  match getVal d k with
  | some (.vstr s) => containsCI pat s
  | _ => false

/-- The `$or` clause of `list_products`: the pattern matches title or
description, case-insensitively. -/
def qClauseMatches (pat : String) (d : Doc) : Bool :=
  strFieldContainsCI d "title" pat || strFieldContainsCI d "description" pat

/-- Modelled from the spec: evaluation of `list_products`' filter dict by
the store — "all contributed clauses are combined with logical AND; no
parameters present ⇒ predicate matches every document" (section 4.3). -/
def matchesProductFilter (f : ProductFilter) (d : Doc) : Bool :=
  (match f.qPattern with | none => true | some pat => qClauseMatches pat d) &&
  (match f.saree_type with | none => true | some v => strFieldIs d "saree_type" v) &&
  (match f.color with | none => true | some v => strFieldIs d "color" v) &&
  (match f.material with | none => true | some v => strFieldIs d "material" v) &&
  (match f.occasion with | none => true | some v => strFieldIs d "occasion" v)

/-! ## Schema validation (`src/schemas.py`)

Each pydantic model is embedded as a payload type (every field optional,
as an incoming JSON body may omit any of them), an issue-collecting
validation pass (pydantic gathers all field errors, in field declaration
order), and the validated model. A field with a declared default is
filled in when absent; a field without one is required. -/

/-- One pydantic validation error: the offending field and the violated
constraint (pydantic error types such as "missing",
"greater_than_equal", "less_than_equal"). -/
structure ValIssue where
  field : String
  constraint : String
deriving DecidableEq

/-- `HttpUrl` coercion: pydantic accepts http/https URLs; modelled as the
scheme check. -/
def isHttpUrl (s : String) : Bool :=
  List.isPrefixOf "http://".data s.data || List.isPrefixOf "https://".data s.data

/-- Required string field. -/
def reqStr (f : String) : Option String → List ValIssue
  | none => [⟨f, "missing"⟩]
  | some _ => []

/-- Required integer field with a `ge` bound. -/
def reqIntGe (f : String) (lo : Int) : Option Int → List ValIssue
  | none => [⟨f, "missing"⟩]
  | some n => if n < lo then [⟨f, "greater_than_equal"⟩] else []

/-- Defaulted integer field with a `ge` bound (checked only when given). -/
def defIntGe (f : String) (lo : Int) : Option Int → List ValIssue
  | none => []
  | some n => if n < lo then [⟨f, "greater_than_equal"⟩] else []

/-- Required integer field with `ge` and `le` bounds. -/
def reqIntRange (f : String) (lo hi : Int) : Option Int → List ValIssue
  | none => [⟨f, "missing"⟩]
  | some n =>
    if n < lo then [⟨f, "greater_than_equal"⟩]
    else if hi < n then [⟨f, "less_than_equal"⟩]
    else []

/-- Optional `HttpUrl` field. -/
def optUrl (f : String) : Option String → List ValIssue
  | none => []
  | some s => if isHttpUrl s then [] else [⟨f, "url"⟩]

/-- Defaulted `List[HttpUrl]` field. -/
def defUrlList (f : String) : Option (List String) → List ValIssue
  | none => []
  | some l => if l.all isHttpUrl then [] else [⟨f, "url"⟩]

/-- Defaulted `Literal[...]` field: enum membership when given. -/
def defLiteral (f : String) (allowed : List String) : Option String → List ValIssue
  | none => []
  | some s => if allowed.contains s then [] else [⟨f, "literal_error"⟩]

/-- Required list field (`List[dict]`, elements unvalidated). -/
def reqList (f : String) : Option (List Doc) → List ValIssue
  | none => [⟨f, "missing"⟩]
  | some _ => []

/-! ### Category -/

structure CategoryPayload where
  name : Option String
  slug : Option String

structure CategoryModel where
  name : String
  slug : String

def categoryIssues (p : CategoryPayload) : List ValIssue :=
  reqStr "name" p.name ++ reqStr "slug" p.slug

/-- The validated category; the `getD` fallbacks are only reached when
the field was present (validation rejects the payload otherwise). -/
def buildCategory (p : CategoryPayload) : CategoryModel :=
  { name := p.name.getD "", slug := p.slug.getD "" }

def validateCategory (p : CategoryPayload) : Except (List ValIssue) CategoryModel :=
  match categoryIssues p with
  | [] => .ok (buildCategory p)
  | issues => .error issues

/-! ### Vendor -/

structure VendorPayload where
  store_name : Option String
  slug : Option String
  logo_url : Option String
  about : Option String
  verified : Option Bool
  membership_status : Option String
  membership_renewal_date : Option String
  region : Option String

structure VendorModel where
  store_name : String
  slug : String
  logo_url : Option String
  about : Option String
  verified : Bool
  membership_status : String
  membership_renewal_date : Option String
  region : Option String

def vendorIssues (p : VendorPayload) : List ValIssue :=
  reqStr "store_name" p.store_name ++ reqStr "slug" p.slug ++
  optUrl "logo_url" p.logo_url ++
  defLiteral "membership_status" ["active", "expired"] p.membership_status

def buildVendor (p : VendorPayload) : VendorModel :=
  { store_name := p.store_name.getD ""
    slug := p.slug.getD ""
    logo_url := p.logo_url
    about := p.about
    verified := p.verified.getD false
    membership_status := p.membership_status.getD "active"
    membership_renewal_date := p.membership_renewal_date
    region := p.region }

def validateVendor (p : VendorPayload) : Except (List ValIssue) VendorModel :=
  match vendorIssues p with
  | [] => .ok (buildVendor p)
  | issues => .error issues

/-! ### Product -/

structure ProductPayload where
  title : Option String
  slug : Option String
  description : Option String
  vendor_slug : Option String
  price_in_paise : Option Int
  saree_type : Option String
  color : Option String
  material : Option String
  occasion : Option String
  care : Option String
  images : Option (List String)
  stock : Option Int

structure ProductModel where
  title : String
  slug : String
  description : Option String
  vendor_slug : String
  price_in_paise : Int
  saree_type : String
  color : Option String
  material : Option String
  occasion : Option String
  care : Option String
  images : List String
  stock : Int

def productIssues (p : ProductPayload) : List ValIssue :=
  reqStr "title" p.title ++ reqStr "slug" p.slug ++
  reqStr "vendor_slug" p.vendor_slug ++
  reqIntGe "price_in_paise" 0 p.price_in_paise ++
  reqStr "saree_type" p.saree_type ++
  defUrlList "images" p.images ++
  defIntGe "stock" 0 p.stock

def buildProduct (p : ProductPayload) : ProductModel :=
  { title := p.title.getD ""
    slug := p.slug.getD ""
    description := p.description
    vendor_slug := p.vendor_slug.getD ""
    price_in_paise := p.price_in_paise.getD 0
    saree_type := p.saree_type.getD ""
    color := p.color
    material := p.material
    occasion := p.occasion
    care := p.care
    images := p.images.getD []
    stock := p.stock.getD 10 }

def validateProduct (p : ProductPayload) : Except (List ValIssue) ProductModel :=
  match productIssues p with
  | [] => .ok (buildProduct p)
  | issues => .error issues

/-! ### Review -/

structure ReviewPayload where
  product_slug : Option String
  rating : Option Int
  comment : Option String
  author_name : Option String

structure ReviewModel where
  product_slug : String
  rating : Int
  comment : Option String
  author_name : Option String

def reviewIssues (p : ReviewPayload) : List ValIssue :=
  reqStr "product_slug" p.product_slug ++ reqIntRange "rating" 1 5 p.rating

def buildReview (p : ReviewPayload) : ReviewModel :=
  { product_slug := p.product_slug.getD ""
    rating := p.rating.getD 0
    comment := p.comment
    author_name := p.author_name }

def validateReview (p : ReviewPayload) : Except (List ValIssue) ReviewModel :=
  match reviewIssues p with
  | [] => .ok (buildReview p)
  | issues => .error issues

/-! ### Order -/

structure OrderPayload where
  buyer_name : Option String
  buyer_email : Option String
  vendor_slug : Option String
  items : Option (List Doc)
  total_in_paise : Option Int
  status : Option String

structure OrderModel where
  buyer_name : String
  buyer_email : String
  vendor_slug : String
  items : List Doc
  total_in_paise : Int
  status : String

def orderIssues (p : OrderPayload) : List ValIssue :=
  reqStr "buyer_name" p.buyer_name ++ reqStr "buyer_email" p.buyer_email ++
  reqStr "vendor_slug" p.vendor_slug ++ reqList "items" p.items ++
  reqIntGe "total_in_paise" 0 p.total_in_paise ++
  defLiteral "status" ["pending", "paid", "dispatched", "delivered", "refunded"] p.status

def buildOrder (p : OrderPayload) : OrderModel :=
  { buyer_name := p.buyer_name.getD ""
    buyer_email := p.buyer_email.getD ""
    vendor_slug := p.vendor_slug.getD ""
    items := p.items.getD []
    total_in_paise := p.total_in_paise.getD 0
    status := p.status.getD "pending" }

def validateOrder (p : OrderPayload) : Except (List ValIssue) OrderModel :=
  match orderIssues p with
  | [] => .ok (buildOrder p)
  | issues => .error issues

/-! ## Serialization of validated bodies for persistence

The create endpoints hand the validated pydantic model to
`create_document`; absent optional fields persist as nulls. -/

def optStrVal : Option String → Value
  | none => .vnull
  | some s => .vstr s

def productToDoc (m : ProductModel) : Doc :=
  [("title", .vstr m.title), ("slug", .vstr m.slug),
   ("description", optStrVal m.description), ("vendor_slug", .vstr m.vendor_slug),
   ("price_in_paise", .vint m.price_in_paise), ("saree_type", .vstr m.saree_type),
   ("color", optStrVal m.color), ("material", optStrVal m.material),
   ("occasion", optStrVal m.occasion), ("care", optStrVal m.care),
   ("images", .varr (m.images.map Value.vstr)), ("stock", .vint m.stock)]

def vendorToDoc (m : VendorModel) : Doc :=
  [("store_name", .vstr m.store_name), ("slug", .vstr m.slug),
   ("logo_url", optStrVal m.logo_url), ("about", optStrVal m.about),
   ("verified", .vbool m.verified), ("membership_status", .vstr m.membership_status),
   ("membership_renewal_date", optStrVal m.membership_renewal_date),
   ("region", optStrVal m.region)]

def reviewToDoc (m : ReviewModel) : Doc :=
  [("product_slug", .vstr m.product_slug), ("rating", .vint m.rating),
   ("comment", optStrVal m.comment), ("author_name", optStrVal m.author_name)]

def orderToDoc (m : OrderModel) : Doc :=
  [("buyer_name", .vstr m.buyer_name), ("buyer_email", .vstr m.buyer_email),
   ("vendor_slug", .vstr m.vendor_slug), ("items", .varr (m.items.map Value.vdoc)),
   ("total_in_paise", .vint m.total_in_paise), ("status", .vstr m.status)]

/-! ## The endpoints (`src/main.py`)

Each endpoint takes the process-wide `db` handle: `none` is the
permanently uninitialized store, `some s` the connected store. A create
endpoint is the composition of FastAPI's request-body validation (which
runs before the handler and rejects the request on pydantic issues) with
the handler body; it returns the possibly-updated store alongside the
outcome, so that non-persistence is visible in the result. -/

/-- A failure surfaced to the client: an `HTTPException` raised inside a
handler, carrying the transport status code and detail string written in
the source, or the request-body validation failure FastAPI builds from
the pydantic issues (rendered as HTTP 422) before the handler runs. -/
inductive ApiFailure where
  | http (status : Nat) (detail : String)
  | validation (issues : List ValIssue)
deriving DecidableEq

/-- GET `/api/products` (main.py 172-200). -/
def list_products (db : Option Store)
    (q saree_type color material occasion : Option String) (limit : Nat) : List Doc :=
  match db with
  | none => []
  | some s =>
    let f := buildProductFilter q saree_type color material occasion
    (get_documents s "product" (matchesProductFilter f) limit).map normalizeId

/-- GET `/api/products/(slug)` (main.py 203-220). -/
def get_product (db : Option Store) (slug : String) : Except ApiFailure Doc :=
  match db with
  | none => .error (.http 503 "Database not available")
  | some s =>
    match get_documents s "product" (eqPred "slug" slug) 1 with
    | [] => .error (.http 404 "Product not found")
    | d :: _ =>
      let d1 := normalizeId d
      let reviews := (get_documents s "review" (eqPred "product_slug" slug) 50).map normalizeId
      .ok (setKey d1 "reviews" (.varr (reviews.map .vdoc)))

/-- POST `/api/products` (main.py 223-229, body validated by pydantic). -/
def create_product (db : Option Store) (body : ProductPayload) :
    Option Store × Except ApiFailure String :=
  match validateProduct body with
  | .error issues => (db, .error (.validation issues))
  | .ok m =>
    match db with
    | none => (db, .error (.http 503 "Database not available"))
    | some s =>
      let r := create_document s "product" (productToDoc m)
      (some r.2, .ok r.1)

/-- GET `/api/vendors` (main.py 233-240): no filter, match-all query. -/
def list_vendors (db : Option Store) (limit : Nat) : List Doc :=
  match db with
  | none => []
  | some s => (get_documents s "vendor" (fun _ => true) limit).map normalizeId

/-- GET `/api/vendors/(slug)` (main.py 243-263). -/
def get_vendor (db : Option Store) (slug : String) : Except ApiFailure Doc :=
  match db with
  | none => .error (.http 503 "Database not available")
  | some s =>
    match get_documents s "vendor" (eqPred "slug" slug) 1 with
    | [] => .error (.http 404 "Vendor not found")
    | d :: _ =>
      let d1 := normalizeId d
      let products := (get_documents s "product" (eqPred "vendor_slug" slug) 50).map normalizeId
      .ok (setKey d1 "products" (.varr (products.map .vdoc)))

/-- POST `/api/vendors` (main.py 266-275). -/
def create_vendor (db : Option Store) (body : VendorPayload) :
    Option Store × Except ApiFailure String :=
  match validateVendor body with
  | .error issues => (db, .error (.validation issues))
  | .ok m =>
    match db with
    | none => (db, .error (.http 503 "Database not available"))
    | some s =>
      let r := create_document s "vendor" (vendorToDoc m)
      (some r.2, .ok r.1)

/-- GET `/api/reviews/(product_slug)` (main.py 283-290). -/
def list_reviews (db : Option Store) (product_slug : String) (limit : Nat) : List Doc :=
  match db with
  | none => []
  | some s =>
    (get_documents s "review" (eqPred "product_slug" product_slug) limit).map normalizeId

/-- POST `/api/reviews` (main.py 293-298). -/
def create_review (db : Option Store) (body : ReviewPayload) :
    Option Store × Except ApiFailure String :=
  match validateReview body with
  | .error issues => (db, .error (.validation issues))
  | .ok m =>
    match db with
    | none => (db, .error (.http 503 "Database not available"))
    | some s =>
      let r := create_document s "review" (reviewToDoc m)
      (some r.2, .ok r.1)

/-- POST `/api/orders` (main.py 302-311). -/
def create_order (db : Option Store) (body : OrderPayload) :
    Option Store × Except ApiFailure String :=
  match validateOrder body with
  | .error issues => (db, .error (.validation issues))
  | .ok m =>
    match db with
    | none => (db, .error (.http 503 "Database not available"))
    | some s =>
      let r := create_document s "order" (orderToDoc m)
      (some r.2, .ok r.1)

/-- The hard-coded category list `list_categories` returns when the
store is uninitialized (main.py 316-323). -/
def fallbackCategories : List Doc :=
  [[("name", .vstr "Banarasi"), ("slug", .vstr "banarasi")],
   [("name", .vstr "Kanjivaram"), ("slug", .vstr "kanjivaram")],
   [("name", .vstr "Cotton"), ("slug", .vstr "cotton")],
   [("name", .vstr "Silk"), ("slug", .vstr "silk")],
   [("name", .vstr "Organza"), ("slug", .vstr "organza")]]

/-- GET `/api/categories` (main.py 315-329). -/
def list_categories (db : Option Store) (limit : Nat) : List Doc :=
  match db with
  | none => fallbackCategories
  | some s => (get_documents s "category" (fun _ => true) limit).map normalizeId

/-! ## Claim theorems -/

/-- C7: Identifier normalization is idempotent — applying it to a
document that lacks the internal identifier field `_id` leaves the
document unchanged — and for any input document its output never
contains `_id` (in particular never alongside the external field `id`);
when `_id` is present, the output's `id` field holds its string form. -/
theorem c7_identifier_normalizer (d : Doc) :
    (getVal d "_id" = none → normalizeId d = d) ∧
    hasKey (normalizeId d) "_id" = false ∧
    ¬ (hasKey (normalizeId d) "_id" = true ∧ hasKey (normalizeId d) "id" = true) ∧
    (∀ v, getVal d "_id" = some v →
      getVal (normalizeId d) "id" = some (.vstr (valueToString v))) := by
  have habsent : ∀ h : getVal d "_id" = none, normalizeId d = d := by
    intro h
    unfold normalizeId
    rw [h]
  have hno : hasKey (normalizeId d) "_id" = false := by
    unfold normalizeId
    cases h : getVal d "_id" with
    | none => simp [hasKey, h]
    | some v =>
      have hne : "_id" ≠ "id" := by decide
      simp [hasKey, getVal_setKey_ne _ _ _ _ hne, getVal_removeKey_self]
  refine ⟨habsent, hno, ?_, ?_⟩
  · intro hc
    rw [hno] at hc
    exact absurd hc.1 (by simp)
  · intro v h
    unfold normalizeId
    rw [h]
    exact getVal_setKey_self _ _ _

/-- Witness for C7 at a concrete document carrying a store identifier:
normalizing is applied, and both the removal of `_id` and the inserted
string-form `id` are observed; the already-normalized document is left
unchanged. -/
theorem c7_identifier_normalizer_witness :
    getVal (normalizeId [("_id", .oid 7), ("title", .vstr "Royal Banarasi Brocade")]) "id" =
      some (.vstr "7") ∧
    normalizeId [("title", .vstr "Royal Banarasi Brocade")] =
      [("title", .vstr "Royal Banarasi Brocade")] :=
  ⟨(c7_identifier_normalizer [("_id", .oid 7), ("title", .vstr "Royal Banarasi Brocade")]).2.2.2
      (.oid 7) rfl,
   (c7_identifier_normalizer [("title", .vstr "Royal Banarasi Brocade")]).1 rfl⟩

/-- A well-formed product body: all required fields present and in
bounds, defaults left to the validator. -/
def sampleProductPayload : ProductPayload :=
  ⟨some "Summer Breeze Cotton", some "summer-breeze-cotton", none, some "cotton-looms",
   some 299900, some "Cotton", none, none, none, none, none, none⟩

/-- A well-formed vendor body. -/
def sampleVendorPayload : VendorPayload :=
  ⟨some "Cotton Looms", some "cotton-looms", none, none, some false, none, none, none⟩

/-- A well-formed review body. -/
def sampleReviewPayload : ReviewPayload :=
  ⟨some "royal-banarasi-brocade", some 4, none, none⟩

/-- A well-formed order body. -/
def sampleOrderPayload : OrderPayload :=
  ⟨some "Asha", some "asha@example.com", some "cotton-looms", some [], some 299900, none⟩

/-- C1, counterexample: on the uninitialized store, the category listing
does not return an empty sequence — it returns the hard-coded
five-category fallback list. -/
theorem c1_counterexample :
    list_categories none 20 = fallbackCategories ∧ fallbackCategories ≠ [] :=
  ⟨rfl, by simp [fallbackCategories]⟩

/-- C1, amended: while the backing store is uninitialized, listing
products, vendors, or reviews returns an empty sequence rather than
failing; listing categories returns the hard-coded fallback list of five
categories; and every create operation (product, vendor, review, order)
invoked with a payload that passes validation fails with the
store-unavailable error (HTTP 503) and persists nothing. -/
theorem c1_uninitialized_store (qp st co ma oc : Option String) (lp lv lr lc : Nat)
    (ps : String) (pp : ProductPayload) (vp : VendorPayload) (rp : ReviewPayload)
    (op : OrderPayload) (hpp : productIssues pp = []) (hvp : vendorIssues vp = [])
    (hrp : reviewIssues rp = []) (hop : orderIssues op = []) :
    list_products none qp st co ma oc lp = [] ∧
    list_vendors none lv = [] ∧
    list_reviews none ps lr = [] ∧
    list_categories none lc = fallbackCategories ∧
    create_product none pp = (none, .error (.http 503 "Database not available")) ∧
    create_vendor none vp = (none, .error (.http 503 "Database not available")) ∧
    create_review none rp = (none, .error (.http 503 "Database not available")) ∧
    create_order none op = (none, .error (.http 503 "Database not available")) := by
  refine ⟨rfl, rfl, rfl, rfl, ?_, ?_, ?_, ?_⟩
  · simp [create_product, validateProduct, hpp]
  · simp [create_vendor, validateVendor, hvp]
  · simp [create_review, validateReview, hrp]
  · simp [create_order, validateOrder, hop]

/-- Witness for C1 at concrete inputs: the three degraded listings, the
category fallback, and a valid product body refused with 503. -/
theorem c1_uninitialized_store_witness :
    list_products none none none none none none 24 = [] ∧
    list_categories none 20 = fallbackCategories ∧
    create_product none sampleProductPayload =
      (none, .error (.http 503 "Database not available")) := by
  have h := c1_uninitialized_store none none none none none 24 20 20 20
    "royal-banarasi-brocade" sampleProductPayload sampleVendorPayload sampleReviewPayload
    sampleOrderPayload (by decide) (by decide) (by decide) (by decide)
  exact ⟨h.1, h.2.2.2.1, h.2.2.2.2.1⟩

/-- C10: a product-listing filter parameter supplied as the empty string
contributes no clause: in each parameter position the empty string
produces the same filter as an absent parameter, and the filter built
from five empty strings matches every document. -/
theorem c10_empty_string_params (q st co ma oc : Option String) (d : Doc) :
    buildProductFilter (some "") st co ma oc = buildProductFilter none st co ma oc ∧
    buildProductFilter q (some "") co ma oc = buildProductFilter q none co ma oc ∧
    buildProductFilter q st (some "") ma oc = buildProductFilter q st none ma oc ∧
    buildProductFilter q st co (some "") oc = buildProductFilter q st co none oc ∧
    buildProductFilter q st co ma (some "") = buildProductFilter q st co ma none ∧
    matchesProductFilter
      (buildProductFilter (some "") (some "") (some "") (some "") (some "")) d = true :=
  ⟨rfl, rfl, rfl, rfl, rfl, rfl⟩

theorem strFieldIs_iff (d : Doc) (k v : String) :
    strFieldIs d k v = true ↔ getVal d k = some (.vstr v) := by
  unfold strFieldIs
  cases h : getVal d k with
  | none => simp
  | some w => cases w <;> simp

theorem strFieldContainsCI_iff (d : Doc) (k pat : String) :
    strFieldContainsCI d k pat = true ↔
      ∃ s, getVal d k = some (.vstr s) ∧ containsCI pat s = true := by
  unfold strFieldContainsCI
  cases h : getVal d k with
  | none => simp
  | some w => cases w <;> simp

theorem truthy_of_ne_empty (o : Option String) (h : o ≠ some "") : truthy o = o := by
  cases o with
  | none => rfl
  | some s =>
    have hs : ¬ (s == "") := by
      simp only [beq_iff_eq]
      intro hc
      exact h (by rw [hc])
    simp [truthy, hs]

/-- C2: with the free-text parameter `q` (and no other filter
parameters), the product-listing predicate matches a document exactly
when `q` is a case-insensitive substring of the document's title or of
its description, for every string value of `q`.  (`q=""` contributes no
clause, and the empty string is a substring of everything, so the
equivalence also holds there.) -/
theorem c2_free_text_search (qv : String) (d : Doc) (t : String)
    (ht : getVal d "title" = some (.vstr t)) :
    matchesProductFilter (buildProductFilter (some qv) none none none none) d = true ↔
      (containsCI qv t = true ∨
        ∃ s, getVal d "description" = some (.vstr s) ∧ containsCI qv s = true) := by
  by_cases hq : qv = ""
  · subst hq
    constructor
    · intro _
      exact Or.inl (containsCI_empty t)
    · intro _
      rfl
  · have hne : (some qv : Option String) ≠ some "" := by
      simp [hq]
    have hb : truthy (some qv) = some qv := truthy_of_ne_empty _ hne
    have htitle : strFieldContainsCI d "title" qv = containsCI qv t := by
      unfold strFieldContainsCI
      rw [ht]
    have h0 : truthy none = none := rfl
    simp only [matchesProductFilter, buildProductFilter, hb, h0, Bool.and_true,
      qClauseMatches, Bool.or_eq_true, htitle, strFieldContainsCI_iff]

/-- Witness for C2: "banarasi" matches the document titled "Royal
Banarasi Brocade" (case-insensitively), and "velvet" does not match a
document with neither title nor description containing it. -/
theorem c2_free_text_search_witness :
    matchesProductFilter (buildProductFilter (some "banarasi") none none none none)
      [("title", .vstr "Royal Banarasi Brocade"),
       ("description", .vstr "Rich zari work with traditional motifs.")] = true ∧
    matchesProductFilter (buildProductFilter (some "velvet") none none none none)
      [("title", .vstr "Summer Breeze Cotton"),
       ("description", .vstr "Lightweight cotton saree.")] = false := by
  constructor
  · exact (c2_free_text_search "banarasi"
      [("title", .vstr "Royal Banarasi Brocade"),
       ("description", .vstr "Rich zari work with traditional motifs.")]
      "Royal Banarasi Brocade" rfl).mpr (Or.inl (by decide))
  · have h := c2_free_text_search "velvet"
      [("title", .vstr "Summer Breeze Cotton"),
       ("description", .vstr "Lightweight cotton saree.")]
      "Summer Breeze Cotton" rfl
    by_contra hc
    simp only [Bool.not_eq_false] at hc
    rcases h.mp hc with h1 | ⟨s, hs, h2⟩
    · exact absurd h1 (by decide)
    · have : s = "Lightweight cotton saree." := by
        have := hs
        simp [getVal] at this
        exact this.symm
      subst this
      exact absurd h2 (by decide)

/-- C3: the product-listing filter built with zero parameters matches
every document; with the parameters that are present (supplied non-empty)
the predicate is the conjunction of the per-parameter clauses — the
free-text clause for `q` and a case-sensitive equality clause on the
corresponding field for each of saree_type, color, material, occasion —
so with `saree_type="Cotton"` exactly the documents whose saree_type
field is the string "Cotton" match. -/
theorem c3_filter_conjunction (q st co ma oc : Option String) (d : Doc)
    (hq : q ≠ some "") (hst : st ≠ some "") (hco : co ≠ some "")
    (hma : ma ≠ some "") (hoc : oc ≠ some "") :
    (∀ d2 : Doc, matchesProductFilter (buildProductFilter none none none none none) d2 = true) ∧
    (matchesProductFilter (buildProductFilter q st co ma oc) d = true ↔
      ((∀ pat, q = some pat → qClauseMatches pat d = true) ∧
       (∀ v, st = some v → getVal d "saree_type" = some (.vstr v)) ∧
       (∀ v, co = some v → getVal d "color" = some (.vstr v)) ∧
       (∀ v, ma = some v → getVal d "material" = some (.vstr v)) ∧
       (∀ v, oc = some v → getVal d "occasion" = some (.vstr v)))) ∧
    (matchesProductFilter (buildProductFilter none (some "Cotton") none none none) d = true ↔
      getVal d "saree_type" = some (.vstr "Cotton")) := by
  refine ⟨fun d2 => rfl, ?_, ?_⟩
  · simp only [matchesProductFilter, buildProductFilter,
      truthy_of_ne_empty q hq, truthy_of_ne_empty st hst, truthy_of_ne_empty co hco,
      truthy_of_ne_empty ma hma, truthy_of_ne_empty oc hoc, Bool.and_eq_true]
    constructor
    · rintro ⟨⟨⟨⟨h1, h2⟩, h3⟩, h4⟩, h5⟩
      refine ⟨?_, ?_, ?_, ?_, ?_⟩
      · intro pat hpat; subst hpat; exact h1
      · intro v hv; subst hv; exact (strFieldIs_iff d "saree_type" v).mp h2
      · intro v hv; subst hv; exact (strFieldIs_iff d "color" v).mp h3
      · intro v hv; subst hv; exact (strFieldIs_iff d "material" v).mp h4
      · intro v hv; subst hv; exact (strFieldIs_iff d "occasion" v).mp h5
    · rintro ⟨h1, h2, h3, h4, h5⟩
      refine ⟨⟨⟨⟨?_, ?_⟩, ?_⟩, ?_⟩, ?_⟩
      · cases q with
        | none => rfl
        | some pat => exact h1 pat rfl
      · cases st with
        | none => rfl
        | some v => exact (strFieldIs_iff d "saree_type" v).mpr (h2 v rfl)
      · cases co with
        | none => rfl
        | some v => exact (strFieldIs_iff d "color" v).mpr (h3 v rfl)
      · cases ma with
        | none => rfl
        | some v => exact (strFieldIs_iff d "material" v).mpr (h4 v rfl)
      · cases oc with
        | none => rfl
        | some v => exact (strFieldIs_iff d "occasion" v).mpr (h5 v rfl)
  · have h0 : truthy none = none := rfl
    have hcot : truthy (some "Cotton") = some "Cotton" := rfl
    simp only [matchesProductFilter, buildProductFilter, h0, hcot, Bool.and_true,
      Bool.true_and, strFieldIs_iff]

/-- Witness for C3: the Cotton filter accepts the Cotton document and,
by the equivalence, cannot accept the Banarasi one. -/
theorem c3_filter_conjunction_witness :
    matchesProductFilter (buildProductFilter none (some "Cotton") none none none)
      [("slug", .vstr "summer-breeze-cotton"), ("saree_type", .vstr "Cotton")] = true ∧
    matchesProductFilter (buildProductFilter none (some "Cotton") none none none)
      [("slug", .vstr "royal-banarasi-brocade"), ("saree_type", .vstr "Banarasi")] = false := by
  constructor
  · exact ((c3_filter_conjunction none (some "Cotton") none none none
      [("slug", .vstr "summer-breeze-cotton"), ("saree_type", .vstr "Cotton")]
      (by simp) (by simp) (by simp) (by simp) (by simp)).2.2).mpr rfl
  · have h := (c3_filter_conjunction none (some "Cotton") none none none
      [("slug", .vstr "royal-banarasi-brocade"), ("saree_type", .vstr "Banarasi")]
      (by simp) (by simp) (by simp) (by simp) (by simp)).2.2
    by_contra hc
    simp only [Bool.not_eq_false] at hc
    have := h.mp hc
    simp [getVal] at this

/-- C5: for a review payload whose other fields satisfy their
constraints, validation with rating 0 or 6 always fails (on the violated
bound), and validation with rating 1 or 5 always succeeds. -/
theorem c5_rating_bounds (p : ReviewPayload) (h : reviewIssues p = []) :
    validateReview { p with rating := some 0 } =
      .error [⟨"rating", "greater_than_equal"⟩] ∧
    validateReview { p with rating := some 6 } =
      .error [⟨"rating", "less_than_equal"⟩] ∧
    (∃ m, validateReview { p with rating := some 1 } = .ok m ∧ m.rating = 1) ∧
    (∃ m, validateReview { p with rating := some 5 } = .ok m ∧ m.rating = 5) := by
  have hps : reqStr "product_slug" p.product_slug = [] :=
    (List.append_eq_nil.mp (by simpa [reviewIssues] using h)).1
  refine ⟨?_, ?_, ?_, ?_⟩
  · have hi : reviewIssues { p with rating := some 0 } =
        [⟨"rating", "greater_than_equal"⟩] := by
      simp [reviewIssues, hps, reqIntRange]
    simp [validateReview, hi]
  · have hi : reviewIssues { p with rating := some 6 } =
        [⟨"rating", "less_than_equal"⟩] := by
      simp [reviewIssues, hps, reqIntRange]
    simp [validateReview, hi]
  · have hi : reviewIssues { p with rating := some 1 } = [] := by
      simp [reviewIssues, hps, reqIntRange]
    exact ⟨buildReview { p with rating := some 1 }, by simp [validateReview, hi], rfl⟩
  · have hi : reviewIssues { p with rating := some 5 } = [] := by
      simp [reviewIssues, hps, reqIntRange]
    exact ⟨buildReview { p with rating := some 5 }, by simp [validateReview, hi], rfl⟩

/-- Witness for C5: the concrete sample review body, rechecked at the
four boundary ratings. -/
theorem c5_rating_bounds_witness :
    validateReview { sampleReviewPayload with rating := some 0 } =
      .error [⟨"rating", "greater_than_equal"⟩] ∧
    (∃ m, validateReview { sampleReviewPayload with rating := some 5 } =
      .ok m ∧ m.rating = 5) :=
  ⟨(c5_rating_bounds sampleReviewPayload (by decide)).1,
   (c5_rating_bounds sampleReviewPayload (by decide)).2.2.2⟩

/-- C9: a product payload that omits stock and images but provides the
required fields within bounds validates successfully, with stock
defaulting to 10 and images to the empty list in the validated
document. -/
theorem c9_product_defaults (p : ProductPayload)
    (ht : p.title ≠ none) (hs : p.slug ≠ none) (hv : p.vendor_slug ≠ none)
    (hst : p.saree_type ≠ none) (hpr : ∃ pr, p.price_in_paise = some pr ∧ 0 ≤ pr)
    (hi : p.images = none) (hk : p.stock = none) :
    validateProduct p = .ok (buildProduct p) ∧
    (buildProduct p).stock = 10 ∧ (buildProduct p).images = [] := by
  obtain ⟨t, ht'⟩ := Option.ne_none_iff_exists'.mp ht
  obtain ⟨sl, hs'⟩ := Option.ne_none_iff_exists'.mp hs
  obtain ⟨vs, hv'⟩ := Option.ne_none_iff_exists'.mp hv
  obtain ⟨sa, hst'⟩ := Option.ne_none_iff_exists'.mp hst
  obtain ⟨pr, hpr', hge⟩ := hpr
  have hzero : productIssues p = [] := by
    simp [productIssues, reqStr, reqIntGe, defUrlList, defIntGe,
      ht', hs', hv', hst', hpr', hi, hk, not_lt.mpr hge]
  refine ⟨by simp [validateProduct, hzero], ?_, ?_⟩
  · simp [buildProduct, hk]
  · simp [buildProduct, hi]

/-- Witness for C9: the sample product body (which has neither stock nor
images) validates, with stock 10 and images empty. -/
theorem c9_product_defaults_witness :
    validateProduct sampleProductPayload = .ok (buildProduct sampleProductPayload) ∧
    (buildProduct sampleProductPayload).stock = 10 ∧
    (buildProduct sampleProductPayload).images = [] :=
  c9_product_defaults sampleProductPayload (by decide) (by decide) (by decide)
    (by decide) ⟨299900, rfl, by decide⟩ rfl rfl

/-- A well-formed category body. -/
def sampleCategoryPayload : CategoryPayload :=
  ⟨some "Cotton", some "cotton"⟩

/-- C6, counterexample: the data model lists Product's `images` and
`stock` without an optional marker, yet a payload omitting both
validates successfully (they are defaulted, not required), contradicting
"validation always fails" for payloads missing them. -/
theorem c6_counterexample :
    sampleProductPayload.images = none ∧ sampleProductPayload.stock = none ∧
    validateProduct sampleProductPayload =
      .ok ⟨"Summer Breeze Cotton", "summer-breeze-cotton", none, "cotton-looms", 299900,
        "Cotton", none, none, none, none, [], 10⟩ :=
  ⟨rfl, rfl, rfl⟩

theorem reqStr_none (f : String) : reqStr f none = [⟨f, "missing"⟩] := rfl

theorem reqList_none (f : String) : reqList f none = [⟨f, "missing"⟩] := rfl

theorem reqIntGe_none (f : String) (lo : Int) : reqIntGe f lo none = [⟨f, "missing"⟩] := rfl

theorem reqIntRange_none (f : String) (lo hi : Int) :
    reqIntRange f lo hi none = [⟨f, "missing"⟩] := rfl

/-- C6, amended: for every entity kind, a payload missing one of the
fields declared without a default — Category's name, slug; Vendor's
store_name, slug; Product's title, slug, vendor_slug, price_in_paise,
saree_type; Review's product_slug, rating; Order's buyer_name,
buyer_email, vendor_slug, items, total_in_paise — while the rest of the
payload satisfies its constraints, always fails with a validation error
naming exactly the missing field, and nothing is persisted (the create
endpoints return the store unchanged). Product's images and stock carry
defaults and are exempt. -/
theorem c6_required_fields (db : Option Store)
    (cp : CategoryPayload) (vp : VendorPayload) (pp : ProductPayload)
    (rp : ReviewPayload) (op : OrderPayload)
    (hc : categoryIssues cp = []) (hv : vendorIssues vp = [])
    (hp : productIssues pp = []) (hr : reviewIssues rp = [])
    (ho : orderIssues op = []) :
    validateCategory { cp with name := none } = .error [⟨"name", "missing"⟩] ∧
    validateCategory { cp with slug := none } = .error [⟨"slug", "missing"⟩] ∧
    validateVendor { vp with store_name := none } = .error [⟨"store_name", "missing"⟩] ∧
    validateVendor { vp with slug := none } = .error [⟨"slug", "missing"⟩] ∧
    validateProduct { pp with title := none } = .error [⟨"title", "missing"⟩] ∧
    validateProduct { pp with slug := none } = .error [⟨"slug", "missing"⟩] ∧
    validateProduct { pp with vendor_slug := none } = .error [⟨"vendor_slug", "missing"⟩] ∧
    validateProduct { pp with price_in_paise := none } =
      .error [⟨"price_in_paise", "missing"⟩] ∧
    validateProduct { pp with saree_type := none } = .error [⟨"saree_type", "missing"⟩] ∧
    validateReview { rp with product_slug := none } = .error [⟨"product_slug", "missing"⟩] ∧
    validateReview { rp with rating := none } = .error [⟨"rating", "missing"⟩] ∧
    validateOrder { op with buyer_name := none } = .error [⟨"buyer_name", "missing"⟩] ∧
    validateOrder { op with buyer_email := none } = .error [⟨"buyer_email", "missing"⟩] ∧
    validateOrder { op with vendor_slug := none } = .error [⟨"vendor_slug", "missing"⟩] ∧
    validateOrder { op with items := none } = .error [⟨"items", "missing"⟩] ∧
    validateOrder { op with total_in_paise := none } =
      .error [⟨"total_in_paise", "missing"⟩] ∧
    create_product db { pp with title := none } =
      (db, .error (.validation [⟨"title", "missing"⟩])) ∧
    create_vendor db { vp with store_name := none } =
      (db, .error (.validation [⟨"store_name", "missing"⟩])) ∧
    create_review db { rp with product_slug := none } =
      (db, .error (.validation [⟨"product_slug", "missing"⟩])) ∧
    create_order db { op with buyer_name := none } =
      (db, .error (.validation [⟨"buyer_name", "missing"⟩])) := by
  simp only [categoryIssues, List.append_eq_nil] at hc
  obtain ⟨hc1, hc2⟩ := hc
  simp only [vendorIssues, List.append_eq_nil] at hv
  obtain ⟨⟨⟨hv1, hv2⟩, hv3⟩, hv4⟩ := hv
  simp only [productIssues, List.append_eq_nil] at hp
  obtain ⟨⟨⟨⟨⟨⟨hp1, hp2⟩, hp3⟩, hp4⟩, hp5⟩, hp6⟩, hp7⟩ := hp
  simp only [reviewIssues, List.append_eq_nil] at hr
  obtain ⟨hr1, hr2⟩ := hr
  simp only [orderIssues, List.append_eq_nil] at ho
  obtain ⟨⟨⟨⟨⟨ho1, ho2⟩, ho3⟩, ho4⟩, ho5⟩, ho6⟩ := ho
  refine ⟨?_, ?_, ?_, ?_, ?_, ?_, ?_, ?_, ?_, ?_, ?_, ?_, ?_, ?_, ?_, ?_, ?_, ?_, ?_, ?_⟩ <;>
    simp [validateCategory, validateVendor, validateProduct, validateReview, validateOrder,
      create_product, create_vendor, create_review, create_order,
      categoryIssues, vendorIssues, productIssues, reviewIssues, orderIssues,
      reqStr_none, reqList_none, reqIntGe_none, reqIntRange_none,
      hc1, hc2, hv1, hv2, hv3, hv4, hp1, hp2, hp3, hp4, hp5, hp6, hp7,
      hr1, hr2, ho1, ho2, ho3, ho4, ho5, ho6]

/-- Witness for C6 at concrete bodies: a product body without a title is
refused naming "title", and posting a review body without its
product_slug persists nothing and names "product_slug". -/
theorem c6_required_fields_witness :
    validateProduct { sampleProductPayload with title := none } =
      .error [⟨"title", "missing"⟩] ∧
    create_review none { sampleReviewPayload with product_slug := none } =
      (none, .error (.validation [⟨"product_slug", "missing"⟩])) := by
  have h := c6_required_fields none sampleCategoryPayload sampleVendorPayload
    sampleProductPayload sampleReviewPayload sampleOrderPayload
    (by decide) (by decide) (by decide) (by decide) (by decide)
  exact ⟨h.2.2.2.2.1, h.2.2.2.2.2.2.2.2.2.2.2.2.2.2.2.2.2.2.1⟩

/-- C4: fetching a product by slug yields that product augmented with a
`reviews` field holding exactly the review documents whose product_slug
equals the requested slug, in insertion (collection) order, capped at
50, each identifier-normalized; zero matching reviews yield the empty
embedded sequence, never an error or null. Symmetrically, fetching a
vendor by slug embeds under `products` the products whose vendor_slug
equals the vendor's slug, insertion order, capped at 50. -/
theorem c4_relational_stitching (s : Store) (pslug vslug : String) (d dv : Doc)
    (hp : get_documents s "product" (eqPred "slug" pslug) 1 = [d])
    (hv : get_documents s "vendor" (eqPred "slug" vslug) 1 = [dv]) :
    (∃ out, get_product (some s) pslug = .ok out ∧
      getVal out "reviews" = some (.varr
        ((((getCollection s "review").filter (eqPred "product_slug" pslug)).take 50).map
          (fun r => Value.vdoc (normalizeId r)))) ∧
      ((getCollection s "review").filter (eqPred "product_slug" pslug) = [] →
        getVal out "reviews" = some (.varr []))) ∧
    (∃ outv, get_vendor (some s) vslug = .ok outv ∧
      getVal outv "products" = some (.varr
        ((((getCollection s "product").filter (eqPred "vendor_slug" vslug)).take 50).map
          (fun r => Value.vdoc (normalizeId r))))) := by
  constructor
  · refine ⟨setKey (normalizeId d) "reviews"
      (.varr (((get_documents s "review" (eqPred "product_slug" pslug) 50).map
        normalizeId).map .vdoc)), ?_, ?_, ?_⟩
    · simp [get_product, hp]
    · rw [getVal_setKey_self]
      simp only [get_documents, List.map_map]
      rfl
    · intro h0
      rw [getVal_setKey_self]
      simp [get_documents, h0]
  · refine ⟨setKey (normalizeId dv) "products"
      (.varr (((get_documents s "product" (eqPred "vendor_slug" vslug) 50).map
        normalizeId).map .vdoc)), ?_, ?_⟩
    · simp [get_vendor, hv]
    · rw [getVal_setKey_self]
      simp only [get_documents, List.map_map]
      rfl

/-- A concrete seeded product document as stored. -/
def sampleProductDoc : Doc :=
  [("title", .vstr "Royal Banarasi Brocade"), ("slug", .vstr "royal-banarasi-brocade"),
   ("vendor_slug", .vstr "varanasi-weaves")]

/-- A concrete seeded vendor document as stored. -/
def sampleVendorDoc : Doc :=
  [("store_name", .vstr "Varanasi Weaves"), ("slug", .vstr "varanasi-weaves")]

/-- Two reviews of the sample product and one of another product. -/
def sampleReviewDoc1 : Doc :=
  [("product_slug", .vstr "royal-banarasi-brocade"), ("rating", .vint 5)]

def sampleReviewDoc2 : Doc :=
  [("product_slug", .vstr "royal-banarasi-brocade"), ("rating", .vint 4)]

def sampleReviewDocOther : Doc :=
  [("product_slug", .vstr "classic-kanjivaram-gold"), ("rating", .vint 4)]

/-- A concrete connected store holding the sample documents. -/
def sampleStore : Store :=
  ⟨[], [sampleVendorDoc], [sampleProductDoc],
   [sampleReviewDoc1, sampleReviewDoc2, sampleReviewDocOther], [], 0⟩

/-- Witness for C4: against the concrete store, the product fetch embeds
exactly its two reviews, in insertion order, and the vendor fetch embeds
its one product. -/
theorem c4_relational_stitching_witness :
    (∃ out, get_product (some sampleStore) "royal-banarasi-brocade" = .ok out ∧
      getVal out "reviews" =
        some (.varr [.vdoc sampleReviewDoc1, .vdoc sampleReviewDoc2])) ∧
    (∃ outv, get_vendor (some sampleStore) "varanasi-weaves" = .ok outv ∧
      getVal outv "products" = some (.varr [.vdoc sampleProductDoc])) := by
  obtain ⟨⟨out, h1, h2, _⟩, ⟨outv, h3, h4⟩⟩ := c4_relational_stitching sampleStore
    "royal-banarasi-brocade" "varanasi-weaves" sampleProductDoc sampleVendorDoc rfl rfl
  refine ⟨⟨out, h1, ?_⟩, ⟨outv, h3, ?_⟩⟩
  · rw [h2]
    rfl
  · rw [h4]
    rfl

/-- C8, counterexample: the handler bodies themselves produce
transport-specific status codes — fetching a product on the
uninitialized store yields HTTP 503 and a missing slug on a connected
store yields HTTP 404, directly from the core functions rather than from
a separate routing layer. -/
theorem c8_counterexample :
    get_product none "royal-banarasi-brocade" =
      .error (.http 503 "Database not available") ∧
    get_product (some ⟨[], [], [], [], [], 0⟩) "royal-banarasi-brocade" =
      .error (.http 404 "Product not found") :=
  ⟨rfl, rfl⟩

/-- C8, amended: each failure class surfaces deterministically, but as
transport-level responses produced by the handlers themselves: a slug
lookup with no match raises HTTPException 404, an uninitialized store on
a write (or single-document read) path raises HTTPException 503, and a
request-body validation failure surfaces as the typed pydantic issue
list (rendered by FastAPI as a 422 response) with nothing persisted;
there is no separate core layer that returns only typed failures. -/
theorem c8_transport_codes (s : Store) (slug : String) (db : Option Store)
    (pp : ProductPayload) (issues : List ValIssue) (pv : ProductPayload)
    (hps : (getCollection s "product").filter (eqPred "slug" slug) = [])
    (hvs : (getCollection s "vendor").filter (eqPred "slug" slug) = [])
    (hval : validateProduct pp = .error issues)
    (hok : productIssues pv = []) :
    get_product (some s) slug = .error (.http 404 "Product not found") ∧
    get_vendor (some s) slug = .error (.http 404 "Vendor not found") ∧
    create_product db pp = (db, .error (.validation issues)) ∧
    create_product none pv = (none, .error (.http 503 "Database not available")) := by
  refine ⟨?_, ?_, ?_, ?_⟩
  · simp [get_product, get_documents, hps]
  · simp [get_vendor, get_documents, hvs]
  · simp [create_product, hval]
  · simp [create_product, validateProduct, hok]

/-- A body missing every field, refused by validation naming the five
required product fields. -/
def emptyProductPayload : ProductPayload :=
  ⟨none, none, none, none, none, none, none, none, none, none, none, none⟩

/-- Witness for C8 at concrete inputs: 404 on an empty store's missing
slug, the typed issue list on an invalid body, 503 for a valid body on
the uninitialized store. -/
theorem c8_transport_codes_witness :
    get_product (some ⟨[], [], [], [], [], 0⟩) "no-such-slug" =
      .error (.http 404 "Product not found") ∧
    create_product (some ⟨[], [], [], [], [], 0⟩) emptyProductPayload =
      (some ⟨[], [], [], [], [], 0⟩, .error (.validation
        [⟨"title", "missing"⟩, ⟨"slug", "missing"⟩, ⟨"vendor_slug", "missing"⟩,
         ⟨"price_in_paise", "missing"⟩, ⟨"saree_type", "missing"⟩])) ∧
    create_product none sampleProductPayload =
      (none, .error (.http 503 "Database not available")) := by
  have h := c8_transport_codes ⟨[], [], [], [], [], 0⟩ "no-such-slug"
    (some ⟨[], [], [], [], [], 0⟩) emptyProductPayload
    [⟨"title", "missing"⟩, ⟨"slug", "missing"⟩, ⟨"vendor_slug", "missing"⟩,
     ⟨"price_in_paise", "missing"⟩, ⟨"saree_type", "missing"⟩]
    sampleProductPayload rfl rfl rfl (by decide)
  exact ⟨h.1, h.2.2.1, h.2.2.2⟩

end SareeSanctuary
